import Mathlib

/-!
# Verification of the pyspark-ai tool adapters

A shallow embedding of `src/pyspark_ai/tool.py`: the three LangChain tool
adapters (`QuerySparkSQLTool`, `QueryValidationTool`, `SimilarValueTool`) and
the vector-search helper (`VectorSearchUtil.vector_similarity_search`).

Modelling conventions:
* Python exceptions are values of `PyError`; a Python function that may raise
  is embedded as a function returning `Except PyError α`.
* The Spark SQL engine is an external collaborator; it is modelled as an
  oracle `SparkEngine : String → Except PyError (List Row)` passed in
  explicitly (it plays the role of the injected `spark` session).  A row is
  an association list from column name to the string rendering of the value.
* Observable side effects are threaded through a `World` record: the list of
  SQL strings sent to the engine (`sqlLog`) and the persisted vector indexes
  on disk (`index`, a map from path to the corpus embedded there).  Stateful
  functions have type `... → World → Except PyError α × World`; the world is
  returned even on error, as Python side effects survive a raised exception.
* The embedding + index collaborator (FAISS / HuggingFaceBgeEmbeddings) is
  external; the similarity ranking is abstracted as a score function
  `sim : String → String → Nat` (higher is more similar) passed explicitly,
  with ties resolved towards the earlier corpus element (tie-breaking is
  implementation-defined per the spec).
-/

set_option autoImplicit false

namespace PysparkAI

/-- The Python exception kinds that can cross the boundaries modelled here.
`pySpark` stands for `pyspark.errors.PySparkException` with the message text
the engine reports; the others are ordinary Python exception kinds. -/
inductive PyError where
  | pySpark (msg : String)
  | typeError (msg : String)
  | indexError (msg : String)
  | valueError (msg : String)
  | invalidInput (msg : String)
  | notImplemented (msg : String)
  deriving Repr, DecidableEq

/-- A result row: column name to string rendering of the value. -/
abbrev Row := List (String × String)

/-- The SQL engine oracle: given a SQL string, either the rows of the result
or a raised exception (engine failures are `PyError.pySpark`; the oracle may
also raise other kinds, which models non-engine exceptions surfacing during
execution). -/
abbrev SparkEngine := String → Except PyError (List Row)

/-- The observable state: SQL strings sent to the engine so far, and the
persisted vector indexes (path to the corpus embedded at that path). -/
structure World where
  sqlLog : List String
  index : List (String × List String)
  deriving Repr, DecidableEq

/-- Send a SQL string to the engine: the query is recorded in the log and the
oracle's verdict is returned. -/
def runSql (engine : SparkEngine) (query : String) (w : World) :
    Except PyError (List Row) × World :=
  (engine query, { w with sqlLog := w.sqlLog ++ [query] })

/-- Persist a freshly built index at `path` (`FAISS.save_local`); a later
load at the same path recovers this corpus. -/
def saveIndex (w : World) (path : String) (corpus : List String) : World :=
  { w with index := (path, corpus) :: w.index }

/-- Python truthiness of an `Optional[str]`: `None` and `""` are falsy. -/
def pyTruthy : Option String → Bool
  | none => false
  | some s => !s.isEmpty

/-- The top-ranked corpus element for `q` under score `sim`: the element with
the maximal score, the earlier one on ties (the underlying library's ranking
order is implementation-defined per the spec; this fixes one order). -/
def topMatch (sim : String → String → Nat) (q : String) :
    List String → Option String
  | [] => none
  | c :: cs =>
    match topMatch sim q cs with
    | none => some c
    | some b => if sim q b > sim q c then some b else some c

/-- `vector_db.similarity_search(search_text)` followed by
`docs[0].page_content`: the single top-ranked match, or an `IndexError` when
the index holds no documents. -/
def docsHead (sim : String → String → Nat) (corpus : List String)
    (q : String) : Except PyError String :=
  match topMatch sim q corpus with
  | some d => Except.ok d
  | none => Except.error (PyError.indexError "list index out of range")

/-- Modelled from the spec: the build half of the embedding collaborator
(`FAISS.from_texts` + optional `save_local` + `similarity_search`), which is
an external library, not code of this repository.  Per the spec (section 4.3)
building from a null or empty corpus fails with an InvalidInput error; on a
non-empty corpus the index is built, persisted when the path is truthy, and
searched. -/
def vssBuild (sim : String → String → Nat) (col_lst : Option (List String))
    (vector_store_path : Option String) (search_text : String) (w : World) :
    Except PyError String × World :=
  match col_lst with
  | none =>
    (Except.error (PyError.invalidInput
      "cannot build an index from a null corpus"), w)
  | some [] =>
    (Except.error (PyError.invalidInput
      "cannot build an index from an empty corpus"), w)
  | some corpus =>
    let w2 :=
      match vector_store_path with
      | some p => if p.isEmpty then w else saveIndex w p corpus
      | none => w
    (docsHead sim corpus search_text, w2)

/-- `VectorSearchUtil.vector_similarity_search` (tool.py lines 106-123):
if the path is truthy and an index exists there, load it (the corpus argument
is ignored); otherwise build from the corpus, persisting to the path when the
path is truthy; finally return the top match for `search_text`. -/
def VectorSearchUtil.vector_similarity_search (sim : String → String → Nat)
    (col_lst : Option (List String)) (vector_store_path : Option String)
    (search_text : String) (w : World) : Except PyError String × World :=
  match vector_store_path with
  | some p =>
    if !p.isEmpty then
      match w.index.lookup p with
      | some stored => (docsHead sim stored search_text, w)
      | none => vssBuild sim col_lst vector_store_path search_text w
    else vssBuild sim col_lst vector_store_path search_text w
  | none => vssBuild sim col_lst none search_text w

/-- Modelled from the spec: `SparkUtils.get_dataframe_results`
(src/pyspark_ai/spark_utils.py is not among the given sources).  Per the spec
(section 4.1) the rows are serialized into a single string, the empty string
when there are zero rows.  The `str(...)` wrapper in `_run_command` is the
identity on this already-string result. -/
def SparkUtils.get_dataframe_results (rows : List Row) : String :=
  String.intercalate "\n"
    (rows.map (fun row =>
      String.intercalate ", " (row.map (fun kv => kv.1 ++ "=" ++ kv.2))))

/-- `QuerySparkSQLTool._run_command` (tool.py lines 46-48): run the command on
the engine and serialize the resulting rows. -/
def QuerySparkSQLTool.run_command (engine : SparkEngine) (command : String)
    (w : World) : Except PyError String × World :=
  match runSql engine command w with
  | (Except.ok rows, w2) => (Except.ok (SparkUtils.get_dataframe_results rows), w2)
  | (Except.error e, w2) => (Except.error e, w2)

/-- `QuerySparkSQLTool._run_no_throw` (tool.py lines 50-68).
`pysparkAvailable` models the conditional import of
`pyspark.errors.PySparkException`: when it fails, a `ValueError` is raised.
Otherwise the command is run; a `PySparkException` is caught and rendered as
an `"Error: "`-prefixed string, while any other exception propagates. -/
def QuerySparkSQLTool.run_no_throw (pysparkAvailable : Bool)
    (engine : SparkEngine) (command : String) (w : World) :
    Except PyError String × World :=
  if pysparkAvailable then
    match QuerySparkSQLTool.run_command engine command w with
    | (Except.error (PyError.pySpark msg), w2) =>
      (Except.ok ("Error: " ++ msg), w2)
    | other => other
  else
    (Except.error (PyError.valueError
      "pyspark is not installed. Please install it with pip install pyspark"), w)

/-- `QuerySparkSQLTool._run` (tool.py lines 31-37) simply delegates to
`_run_no_throw`. -/
def QuerySparkSQLTool.run (pysparkAvailable : Bool) (engine : SparkEngine)
    (query : String) (w : World) : Except PyError String × World :=
  QuerySparkSQLTool.run_no_throw pysparkAvailable engine query w

/-- `QuerySparkSQLTool._arun` (tool.py lines 39-44): raises
`NotImplementedError` unconditionally. -/
def QuerySparkSQLTool.arun (_query : String) (w : World) :
    Except PyError String × World :=
  (Except.error (PyError.notImplemented
    "QuerySqlDbTool does not support async"), w)

/-- Python `str.split` with a one-character separator, on character lists:
every occurrence of `sep` is a cut point and empty segments are kept, exactly
as in Python (so the result always has at least one segment). -/
def splitChar (sep : Char) : List Char → List (List Char)
  | [] => [[]]
  | c :: cs =>
    match splitChar sep cs with
    | [] => if c = sep then [[], []] else [[c]]
    | seg :: rest => if c = sep then [] :: seg :: rest else (c :: seg) :: rest

/-- Python `str.split(sep)` for a one-character separator, on strings. -/
def pySplitOn (sep : Char) (s : String) : List String :=
  (splitChar sep s.toList).map String.mk

/-- Split a character list at each leftmost, non-overlapping occurrence of
the three-backtick code fence. -/
def splitFence : List Char → List (List Char)
  | '`' :: '`' :: '`' :: rest => [] :: splitFence rest
  | c :: cs =>
    match splitFence cs with
    | [] => [[c]]
    | seg :: rest => (c :: seg) :: rest
  | [] => [[]]

/-- The pieces of a text cut at every three-backtick fence. -/
def fenceSplit (text : String) : List String :=
  (splitFence text.toList).map String.mk

/-- The complete fenced blocks among the pieces of a text split on the fence
delimiter: the pieces at odd positions that are followed by a closing fence. -/
def fencedBlocks : List String → List String
  | _ :: b :: rest => if rest.isEmpty then [] else b :: fencedBlocks rest
  | _ => []

/-- Modelled from the spec: `AIUtils.extract_code_blocks`
(src/pyspark_ai/ai_utils.py is not among the given sources).  Per the spec
(section 4.2) it extracts the contents of the markup-delimited (fenced) code
blocks, discarding the surrounding prose; when no fenced block is present the
original text is returned unchanged as the single candidate. -/
def AIUtils.extract_code_blocks (text : String) : List String :=
  let blocks := fencedBlocks (fenceSplit text)
  if blocks.isEmpty then [text] else blocks

/-- `QueryValidationTool._run` (tool.py lines 81-97): after the conditional
import, extract the first code block (`[0]` raises `IndexError` on an empty
list), run it on the engine, return `"OK"` on success; a `PySparkException`
is caught and rendered as an `"Error: "`-prefixed string, any other exception
propagates. -/
def QueryValidationTool.run (pysparkAvailable : Bool) (engine : SparkEngine)
    (query : String) (w : World) : Except PyError String × World :=
  if pysparkAvailable then
    match (AIUtils.extract_code_blocks query).head? with
    | none => (Except.error (PyError.indexError "list index out of range"), w)
    | some actual_query =>
      match runSql engine actual_query w with
      | (Except.ok _, w2) => (Except.ok "OK", w2)
      | (Except.error (PyError.pySpark msg), w2) =>
        (Except.ok ("Error: " ++ msg), w2)
      | (Except.error e, w2) => (Except.error e, w2)
  else
    (Except.error (PyError.valueError
      "pyspark is not installed. Please install it with pip install pyspark"), w)

/-- `QueryValidationTool._arun` (tool.py lines 99-100): raises
`NotImplementedError` unconditionally. -/
def QueryValidationTool.arun (_query : String) (w : World) :
    Except PyError String × World :=
  (Except.error (PyError.notImplemented
    "ListTablesSqlDbTool does not support async"), w)

/-- `str(row[col])` for each collected row (tool.py line 154): looking up a
missing column in a `Row` raises. -/
def collectCol (col : String) (rows : List Row) :
    Except PyError (List String) :=
  match rows with
  | [] => Except.ok []
  | row :: rest =>
    match row.lookup col with
    | none => Except.error (PyError.valueError "column not found in row")
    | some v =>
      match collectCol col rest with
      | Except.ok vs => Except.ok (v :: vs)
      | Except.error e => Except.error e

/-- The distinct-values query string built at tool.py lines 151-153:
`"select distinct `{}` from {}".format(col, temp_name)`. -/
def distinctQuery (col temp_name : String) : String :=
  "select distinct `" ++ col ++ "` from " ++ temp_name

/-- `SimilarValueTool._run` (tool.py lines 140-162).  The input is split on
`"|"` and indexed at 0, 1, 2 (`IndexError` when fewer than three fields).
When `vector_store_dir` is falsy the distinct-values query is sent to the
engine, the column values are collected, and the store path is computed as
`self.vector_store_dir + temp_name + "_" + col` — a `TypeError` when
`vector_store_dir` is `None`, since Python cannot add `None` and `str`.
When `vector_store_dir` is truthy, no query is sent and a null corpus and
null path are passed to the vector search. -/
def SimilarValueTool.run (sim : String → String → Nat)
    (vector_store_dir : Option String) (engine : SparkEngine)
    (inputs : String) (w : World) : Except PyError String × World :=
  let input_lst := pySplitOn '|' inputs
  match input_lst.get? 0, input_lst.get? 1, input_lst.get? 2 with
  | some search_text, some col, some temp_name =>
    if !pyTruthy vector_store_dir then
      match runSql engine (distinctQuery col temp_name) w with
      | (Except.error e, w2) => (Except.error e, w2)
      | (Except.ok rows, w2) =>
        match collectCol col rows with
        | Except.error e => (Except.error e, w2)
        | Except.ok col_lst =>
          match vector_store_dir with
          | none =>
            (Except.error (PyError.typeError
              "unsupported operand types for +: NoneType and str"), w2)
          | some d =>
            VectorSearchUtil.vector_similarity_search sim (some col_lst)
              (some (d ++ temp_name ++ "_" ++ col)) search_text w2
    else
      VectorSearchUtil.vector_similarity_search sim none none search_text w
  | _, _, _ =>
    (Except.error (PyError.indexError "list index out of range"), w)

/-- `SimilarValueTool._arun` (tool.py lines 164-165): raises
`NotImplementedError` unconditionally. -/
def SimilarValueTool.arun (_inputs : String) (w : World) :
    Except PyError String × World :=
  (Except.error (PyError.notImplemented
    "SimilarityTool does not support async"), w)

/-! ## Claim theorems -/

/-- C1: for every SQL query string on which the engine raises a
`PySparkException`, `QuerySparkSQLTool._run` (which delegates to
`_run_no_throw`) returns the string `"Error: "` followed by the engine's
message — in particular the result is `Except.ok`, so the engine exception is
never propagated to the caller. -/
theorem C1_engine_error_becomes_error_string (engine : SparkEngine)
    (command msg : String) (w : World)
    (h : engine command = Except.error (PyError.pySpark msg)) :
    QuerySparkSQLTool.run true engine command w
      = (Except.ok ("Error: " ++ msg),
         { w with sqlLog := w.sqlLog ++ [command] }) := by
  simp [QuerySparkSQLTool.run, QuerySparkSQLTool.run_no_throw,
    QuerySparkSQLTool.run_command, runSql, h]

/-- Witness for C1: a concrete engine failure is rendered as an error
string. -/
theorem C1_witness :
    QuerySparkSQLTool.run true
      (fun _ => Except.error (PyError.pySpark "boom")) "SELECT bad" ⟨[], []⟩
      = (Except.ok "Error: boom", ⟨["SELECT bad"], []⟩) := by
  exact C1_engine_error_becomes_error_string
    (fun _ => Except.error (PyError.pySpark "boom")) "SELECT bad" "boom"
    ⟨[], []⟩ rfl

/-- C8: for every SQL query the engine accepts with zero result rows,
`QuerySparkSQLTool`'s execute operation returns the empty string (never an
error string). -/
theorem C8_zero_rows_empty_string (engine : SparkEngine) (command : String)
    (w : World) (h : engine command = Except.ok []) :
    QuerySparkSQLTool.run true engine command w
      = (Except.ok "", { w with sqlLog := w.sqlLog ++ [command] }) := by
  simp [QuerySparkSQLTool.run, QuerySparkSQLTool.run_no_throw,
    QuerySparkSQLTool.run_command, runSql, h,
    SparkUtils.get_dataframe_results, String.intercalate]

/-- Witness for C8: a concrete zero-row query yields the empty string. -/
theorem C8_witness :
    QuerySparkSQLTool.run true (fun _ => Except.ok []) "SELECT 1" ⟨[], []⟩
      = (Except.ok "", ⟨["SELECT 1"], []⟩) := by
  exact C8_zero_rows_empty_string (fun _ => Except.ok []) "SELECT 1"
    ⟨[], []⟩ rfl

/-- C9: for every input and every world, the asynchronous entry point of each
of the three tools fails with a not-implemented error and leaves the world
unchanged: no query is sent to the engine and no index is built. -/
theorem C9_async_raises_not_implemented (input : String) (w : World) :
    QuerySparkSQLTool.arun input w
      = (Except.error (PyError.notImplemented
          "QuerySqlDbTool does not support async"), w)
    ∧ QueryValidationTool.arun input w
      = (Except.error (PyError.notImplemented
          "ListTablesSqlDbTool does not support async"), w)
    ∧ SimilarValueTool.arun input w
      = (Except.error (PyError.notImplemented
          "SimilarityTool does not support async"), w) :=
  ⟨rfl, rfl, rfl⟩

/-- C2 (code bug): with no vector-store directory configured
(`vector_store_dir = None`, the field's default) and a well-formed
three-field instruction, `SimilarValueTool._run` does issue the
distinct-values query, but then evaluates
`self.vector_store_dir + temp_name + "_" + col` with `None` on the left and
raises a `TypeError` instead of returning the most similar corpus value. -/
theorem C2_none_dir_raises_type_error :
    SimilarValueTool.run (fun _ c => c.length) none
      (fun q => if q = distinctQuery "name" "employees"
        then Except.ok [[("name", "Alice")], [("name", "Bob")]]
        else Except.error (PyError.pySpark "no such view"))
      "Bob|name|employees" ⟨[], []⟩
      = (Except.error (PyError.typeError
          "unsupported operand types for +: NoneType and str"),
         ⟨[distinctQuery "name" "employees"], []⟩) := by
  rfl

/-- C6 (counterexample): on the two-field instruction `"x|y"`,
`SimilarValueTool._run` fails with an out-of-range index error — not with an
InvalidInput condition as the claim states. -/
theorem C6_counterexample_index_error :
    SimilarValueTool.run (fun _ _ => 0) none
      (fun _ => Except.error (PyError.pySpark "e")) "x|y" ⟨[], []⟩
      = (Except.error (PyError.indexError "list index out of range"),
         ⟨[], []⟩) := by
  rfl

/-- C6 (amended): for every instruction with fewer than three pipe-separated
fields, `SimilarValueTool._run` fails with an out-of-range index error (from
the positional indexing `input_lst[2]`) before any query is sent — it does
not silently truncate, but the failure is an IndexError, not InvalidInput. -/
theorem C6_amended_short_input_index_error (sim : String → String → Nat)
    (dir : Option String) (engine : SparkEngine) (inputs : String) (w : World)
    (h : (pySplitOn '|' inputs).length < 3) :
    SimilarValueTool.run sim dir engine inputs w
      = (Except.error (PyError.indexError "list index out of range"), w) := by
  unfold SimilarValueTool.run
  cases hl : pySplitOn '|' inputs with
  | nil => rfl
  | cons a t =>
    cases t with
    | nil => rfl
    | cons b t2 =>
      cases t2 with
      | nil => rfl
      | cons c t3 =>
        exfalso
        rw [hl] at h
        simp [List.length_cons] at h
        omega

/-- Witness for the amended C6 at the concrete two-field instruction. -/
theorem C6_amended_witness :
    SimilarValueTool.run (fun _ _ => 0) (some "/store/")
      (fun _ => Except.ok []) "x|y" ⟨[], []⟩
      = (Except.error (PyError.indexError "list index out of range"),
         ⟨[], []⟩) := by
  exact C6_amended_short_input_index_error (fun _ _ => 0) (some "/store/")
    (fun _ => Except.ok []) "x|y" ⟨[], []⟩ (by decide)

/-- C3: for the vector-search operation with a truthy persisted-index path:
if an index exists at that path it is loaded, the corpus argument is ignored
(the result does not depend on it) and the world is unchanged; if no index
exists there, the corpus is embedded, the index is saved at that path, and a
second call with the same corpus, path and query loads the saved index and
returns the same top match with no further change to the world. -/
theorem C3_persisted_index_reuse (sim : String → String → Nat)
    (corpus : Option (List String)) (stored cs : List String)
    (p q : String) (w : World) (hp : p.isEmpty = false) :
    (w.index.lookup p = some stored →
      VectorSearchUtil.vector_similarity_search sim corpus (some p) q w
        = (docsHead sim stored q, w))
    ∧ (w.index.lookup p = none → cs ≠ [] →
      VectorSearchUtil.vector_similarity_search sim (some cs) (some p) q w
        = (docsHead sim cs q, saveIndex w p cs)
      ∧ VectorSearchUtil.vector_similarity_search sim (some cs) (some p) q
          (saveIndex w p cs)
        = (docsHead sim cs q, saveIndex w p cs)) := by
  constructor
  · intro hl
    simp [VectorSearchUtil.vector_similarity_search, hp, hl]
  · intro hl hcs
    have hlookup2 : (saveIndex w p cs).index.lookup p = some cs := by
      simp [saveIndex, List.lookup]
    constructor
    · cases cs with
      | nil => exact absurd rfl hcs
      | cons a as =>
        simp [VectorSearchUtil.vector_similarity_search, hp, hl, vssBuild]
    · simp [VectorSearchUtil.vector_similarity_search, hp, hlookup2]

/-- Witness for C3: a first call on a fresh world builds and saves the index,
and the identical second call returns the same answer from the saved index. -/
theorem C3_witness :
    VectorSearchUtil.vector_similarity_search (fun _ c => c.length)
      (some ["a", "bb"]) (some "idx") "q" ⟨[], []⟩
      = (docsHead (fun _ c => c.length) ["a", "bb"] "q",
         saveIndex ⟨[], []⟩ "idx" ["a", "bb"])
    ∧ VectorSearchUtil.vector_similarity_search (fun _ c => c.length)
        (some ["a", "bb"]) (some "idx") "q"
        (saveIndex ⟨[], []⟩ "idx" ["a", "bb"])
      = (docsHead (fun _ c => c.length) ["a", "bb"] "q",
         saveIndex ⟨[], []⟩ "idx" ["a", "bb"]) := by
  exact (C3_persisted_index_reuse (fun _ c => c.length) (some ["a", "bb"])
    [] ["a", "bb"] "idx" "q" ⟨[], []⟩ (by decide)).2 rfl (by decide)

/-- C4: when the corpus is null or empty and no persisted index exists at the
supplied path, the vector-search operation fails with an InvalidInput error
that is returned to the caller (not swallowed), leaving the world unchanged. -/
theorem C4_empty_corpus_invalid_input (sim : String → String → Nat)
    (col_lst : Option (List String)) (path : Option String) (q : String)
    (w : World)
    (hc : col_lst = none ∨ col_lst = some [])
    (hnoidx : ∀ p, path = some p → w.index.lookup p = none) :
    ∃ msg, VectorSearchUtil.vector_similarity_search sim col_lst path q w
      = (Except.error (PyError.invalidInput msg), w) := by
  cases path with
  | none =>
    rcases hc with h | h <;> subst h <;> exact ⟨_, rfl⟩
  | some p =>
    have hl := hnoidx p rfl
    by_cases hp : p.isEmpty = true
    · rcases hc with h | h <;> subst h
      · exact ⟨"cannot build an index from a null corpus",
          by simp [VectorSearchUtil.vector_similarity_search, hp, vssBuild]⟩
      · exact ⟨"cannot build an index from an empty corpus",
          by simp [VectorSearchUtil.vector_similarity_search, hp, vssBuild]⟩
    · rcases hc with h | h <;> subst h
      · exact ⟨"cannot build an index from a null corpus",
          by simp [VectorSearchUtil.vector_similarity_search, hp, hl, vssBuild]⟩
      · exact ⟨"cannot build an index from an empty corpus",
          by simp [VectorSearchUtil.vector_similarity_search, hp, hl, vssBuild]⟩

/-- Witness for C4: a null corpus with a fresh path fails with InvalidInput. -/
theorem C4_witness :
    ∃ msg, VectorSearchUtil.vector_similarity_search (fun _ _ => 0) none
      (some "p") "q" ⟨[], []⟩
      = (Except.error (PyError.invalidInput msg), ⟨[], []⟩) := by
  exact C4_empty_corpus_invalid_input (fun _ _ => 0) none (some "p") "q"
    ⟨[], []⟩ (Or.inl rfl) (fun p hp => by cases hp; rfl)

/-- C5: for every input whose fence-split has at least three pieces (i.e. the
input holds a fenced code block surrounded by prose), `QueryValidationTool._run`
extracts exactly the first fenced block's contents, sends exactly that string
to the engine, and returns `"OK"` when the engine accepts it or an
`"Error: "`-prefixed string wrapping the engine's message when the engine
raises a `PySparkException`. -/
theorem C5_fenced_block_extracted_and_validated (engine : SparkEngine)
    (p0 c p2 : String) (rest : List String) (text : String) (w : World)
    (hsplit : fenceSplit text = p0 :: c :: p2 :: rest) :
    (AIUtils.extract_code_blocks text).head? = some c
    ∧ (∀ rows, engine c = Except.ok rows →
        QueryValidationTool.run true engine text w
          = (Except.ok "OK", { w with sqlLog := w.sqlLog ++ [c] }))
    ∧ (∀ msg, engine c = Except.error (PyError.pySpark msg) →
        QueryValidationTool.run true engine text w
          = (Except.ok ("Error: " ++ msg),
             { w with sqlLog := w.sqlLog ++ [c] })) := by
  have hex : AIUtils.extract_code_blocks text = c :: fencedBlocks (p2 :: rest) := by
    simp [AIUtils.extract_code_blocks, hsplit, fencedBlocks]
  refine ⟨by simp [hex], ?_, ?_⟩
  · intro rows hr
    simp [QueryValidationTool.run, hex, runSql, hr]
  · intro msg hr
    simp [QueryValidationTool.run, hex, runSql, hr]

/-- Witness for C5: prose around a fenced query is discarded, the fenced
query alone is executed, and the verdict is `"OK"`. -/
theorem C5_witness :
    QueryValidationTool.run true (fun _ => Except.ok [])
      "use this:```select 1```thanks" ⟨[], []⟩
      = (Except.ok "OK", ⟨["select 1"], []⟩) := by
  exact (C5_fenced_block_extracted_and_validated (fun _ => Except.ok [])
    "use this:" "select 1" "thanks" [] "use this:```select 1```thanks"
    ⟨[], []⟩ (by decide)).2.1 [] rfl

/-- C7: for every well-formed three-field instruction, when a vector-store
directory is configured (truthy), `SimilarValueTool._run` delegates to the
vector-search operation with a null corpus and a null index path, the result
does not depend on the SQL engine, and the world is unchanged — in
particular no distinct-values query is issued. -/
theorem C7_configured_dir_skips_sql (sim : String → String → Nat) (d : String)
    (engine engine2 : SparkEngine) (s c t : String) (inputs : String)
    (w : World) (hd : d.isEmpty = false)
    (hsplit : pySplitOn '|' inputs = [s, c, t]) :
    SimilarValueTool.run sim (some d) engine inputs w
      = VectorSearchUtil.vector_similarity_search sim none none s w
    ∧ SimilarValueTool.run sim (some d) engine inputs w
      = SimilarValueTool.run sim (some d) engine2 inputs w
    ∧ (SimilarValueTool.run sim (some d) engine inputs w).2 = w := by
  have hrun : ∀ e : SparkEngine, SimilarValueTool.run sim (some d) e inputs w
      = VectorSearchUtil.vector_similarity_search sim none none s w := by
    intro e
    unfold SimilarValueTool.run
    rw [hsplit]
    simp [pyTruthy, hd]
  refine ⟨hrun engine, (hrun engine).trans (hrun engine2).symm, ?_⟩
  rw [hrun engine]
  simp [VectorSearchUtil.vector_similarity_search, vssBuild]

/-- Witness for C7: with a configured directory, the run on a three-field
instruction equals the delegation with null corpus and null path, for any
engine, and leaves the world unchanged. -/
theorem C7_witness :
    SimilarValueTool.run (fun _ _ => 0) (some "/store/")
      (fun _ => Except.error (PyError.pySpark "engine must not be called"))
      "Bob|name|employees" ⟨[], []⟩
      = VectorSearchUtil.vector_similarity_search (fun _ _ => 0) none none
          "Bob" ⟨[], []⟩
    ∧ (SimilarValueTool.run (fun _ _ => 0) (some "/store/")
        (fun _ => Except.error (PyError.pySpark "engine must not be called"))
        "Bob|name|employees" ⟨[], []⟩).2 = ⟨[], []⟩ := by
  have h := C7_configured_dir_skips_sql (fun _ _ => 0) "/store/"
    (fun _ => Except.error (PyError.pySpark "engine must not be called"))
    (fun _ => Except.ok []) "Bob" "name" "employees" "Bob|name|employees"
    ⟨[], []⟩ (by decide) (by decide)
  exact ⟨h.1, h.2.2⟩

/-- C10: the error-downgrading boundary of `QuerySparkSQLTool._run_no_throw`
and `QueryValidationTool._run` catches exactly the engine's exception kind:
a `PySparkException` is converted to an `"Error: "`-prefixed return string,
while an exception of any other kind raised during query execution is
propagated to the caller as a raised exception, never returned as a string. -/
theorem C10_catches_exactly_pyspark (engine : SparkEngine) (command : String)
    (w : World) (e : PyError) (he : ∀ m, e ≠ PyError.pySpark m) :
    (engine command = Except.error e →
      QuerySparkSQLTool.run_no_throw true engine command w
        = (Except.error e, { w with sqlLog := w.sqlLog ++ [command] }))
    ∧ (∀ q, (AIUtils.extract_code_blocks command).head? = some q →
        engine q = Except.error e →
        QueryValidationTool.run true engine command w
          = (Except.error e, { w with sqlLog := w.sqlLog ++ [q] }))
    ∧ (∀ msg, engine command = Except.error (PyError.pySpark msg) →
        QuerySparkSQLTool.run_no_throw true engine command w
          = (Except.ok ("Error: " ++ msg),
             { w with sqlLog := w.sqlLog ++ [command] }))
    ∧ (∀ q msg, (AIUtils.extract_code_blocks command).head? = some q →
        engine q = Except.error (PyError.pySpark msg) →
        QueryValidationTool.run true engine command w
          = (Except.ok ("Error: " ++ msg),
             { w with sqlLog := w.sqlLog ++ [q] })) := by
  refine ⟨?_, ?_, ?_, ?_⟩
  · intro h
    cases e <;>
      first
      | exact absurd rfl (he _)
      | simp [QuerySparkSQLTool.run_no_throw, QuerySparkSQLTool.run_command,
          runSql, h]
  · intro q hq h
    cases e <;>
      first
      | exact absurd rfl (he _)
      | simp [QueryValidationTool.run, hq, runSql, h]
  · intro msg h
    simp [QuerySparkSQLTool.run_no_throw, QuerySparkSQLTool.run_command,
      runSql, h]
  · intro q msg hq h
    simp [QueryValidationTool.run, hq, runSql, h]

/-- Witness for C10: a non-engine exception (`ValueError`) raised during
execution propagates out of `_run_no_throw` as a raised exception. -/
theorem C10_witness :
    QuerySparkSQLTool.run_no_throw true
      (fun _ => Except.error (PyError.valueError "boom")) "SELECT 1" ⟨[], []⟩
      = (Except.error (PyError.valueError "boom"), ⟨["SELECT 1"], []⟩) := by
  exact (C10_catches_exactly_pyspark
    (fun _ => Except.error (PyError.valueError "boom")) "SELECT 1" ⟨[], []⟩
    (PyError.valueError "boom") (fun m h => PyError.noConfusion h)).1 rfl

end PysparkAI
